import Mathlib

/-!
Verification of `src/core.c` (RetroEmu).

The source defines a single function:

```c
bool retro_load_game(const struct retro_game_info *game)
{
    if (!game)
        return false;
    if (!load_rom(game->path))
        return false;
    // (initialization placeholders, comments only)
    return true;
}
```

`struct retro_game_info` is not declared in the source (it is the opaque
libretro API structure); the only field the source reads is `path`.  We model
it with a `path` field plus the other fields of the standard libretro layout
(`data`, `size`, `meta`), which the source never touches — they serve to state
that the result is independent of them.  The external collaborator `load_rom`
is undefined in the source, so every embedding is parameterised by an oracle
for it: a pure oracle `String → Bool` for the functional embedding, and a
state-threading oracle `String → σ → Bool × σ` for the effect claims.
A null pointer is modelled as `Option.none`.
-/

/-- The game-description structure.  Opaque in the source; the source reads
only `path`.  The remaining fields model "any other contents". -/
structure retro_game_info where
  path : String
  data : List Nat
  size : Nat
  meta : String

/-- Shallow embedding of `retro_load_game` from `src/core.c`, with the
undefined external `load_rom` passed as a pure oracle.  Mirrors the source
control flow: null check, negated-load check, final `return true`. -/
def retro_load_game (load_rom : String → Bool) (game : Option retro_game_info) : Bool :=
  match game with
  | none => false
  | some g =>
    if !load_rom g.path then false
    else true

/-- Instrumented embedding: same control flow as `retro_load_game`, but also
returns the list of arguments passed to `load_rom`, in order.  The only place
the source dereferences `game` is `game->path` in building that argument, so
an empty call list means the pointer was never dereferenced. -/
def retro_load_game_calls (load_rom : String → Bool) (game : Option retro_game_info) :
    Bool × List String :=
  match game with
  | none => (false, [])
  | some g =>
    let r := load_rom g.path
    if !r then (false, [g.path])
    else (true, [g.path])

/-- State-threading embedding: `load_rom` may read and update an ambient
state `σ` (file system, emulator globals, …); `retro_load_game` itself only
threads that state through the single `load_rom` call. -/
def retro_load_game_eff {σ : Type} (load_rom : String → σ → Bool × σ)
    (game : Option retro_game_info) (s : σ) : Bool × σ :=
  match game with
  | none => (false, s)
  | some g =>
    let rs := load_rom g.path s
    if !rs.1 then (false, rs.2)
    else (true, rs.2)

/-- The instrumented embedding computes the same boolean as the plain one. -/
theorem retro_load_game_calls_fst (load_rom : String → Bool)
    (game : Option retro_game_info) :
    (retro_load_game_calls load_rom game).1 = retro_load_game load_rom game := by
  cases game with
  | none => rfl
  | some g =>
    cases h : load_rom g.path <;>
      simp [retro_load_game_calls, retro_load_game, h]

/-- A sample game record used by the concrete witnesses. -/
def sampleGame : retro_game_info :=
  { path := "roms/mario.nes", data := [0x4e, 0x45, 0x53], size := 3, meta := "NES" }

/-- A second sample game record, differing from `sampleGame` in every field. -/
def sampleGame2 : retro_game_info :=
  { path := "roms/zelda.nes", data := [], size := 0, meta := "" }

/-- C1: `retro_load_game` returns true iff the game reference is non-null and
`load_rom` applied to the game's path returns success; in every other case it
returns false, and (the result being a boolean) no third outcome exists. -/
theorem retro_load_game_true_iff (load_rom : String → Bool)
    (game : Option retro_game_info) :
    retro_load_game load_rom game = true ↔
      ∃ g, game = some g ∧ load_rom g.path = true := by
  cases game with
  | none => simp [retro_load_game]
  | some g =>
    cases h : load_rom g.path <;>
      simp [retro_load_game, h]

/-- C2: a null (absent) game reference makes `retro_load_game` return
failure, for every behaviour of `load_rom`. -/
theorem retro_load_game_none (load_rom : String → Bool) :
    retro_load_game load_rom none = false := rfl

/-- C3: for a non-null reference whose path makes `load_rom` fail,
`retro_load_game` returns failure. -/
theorem retro_load_game_load_fails (load_rom : String → Bool)
    (g : retro_game_info) (h : load_rom g.path = false) :
    retro_load_game load_rom (some g) = false := by
  simp [retro_load_game, h]

/-- Witness for C3 at a concrete oracle and game. -/
theorem retro_load_game_load_fails_witness :
    (fun _ : String => false) sampleGame.path = false ∧
      retro_load_game (fun _ => false) (some sampleGame) = false :=
  ⟨rfl, retro_load_game_load_fails (fun _ => false) sampleGame rfl⟩

/-- C4: on a null reference the function fails immediately: the call trace is
empty, so `load_rom` is never invoked and `game->path` (the sole dereference
of the pointer in the source, on line 10, guarded by the null check on
line 6) is never evaluated. -/
theorem retro_load_game_null_no_call (load_rom : String → Bool) :
    retro_load_game_calls load_rom none = (false, []) := rfl

/-- C5: with a deterministic (result state-independent) `load_rom`, two
successive calls of `retro_load_game` with the same game reference — the
second starting from whatever state the first left behind — return the same
boolean. -/
theorem retro_load_game_idempotent_result {σ : Type}
    (load_rom : String → σ → Bool × σ) (game : Option retro_game_info) (s : σ)
    (hdet : ∀ p s₁ s₂, (load_rom p s₁).1 = (load_rom p s₂).1) :
    (retro_load_game_eff load_rom game
        (retro_load_game_eff load_rom game s).2).1 =
      (retro_load_game_eff load_rom game s).1 := by
  cases game with
  | none => rfl
  | some g =>
    have hs2 : (retro_load_game_eff load_rom (some g) s).2 = (load_rom g.path s).2 := by
      cases h1 : (load_rom g.path s).1 <;> simp [retro_load_game_eff, h1]
    have hd := hdet g.path (load_rom g.path s).2 s
    cases h1 : (load_rom g.path s).1 <;>
      simp_all [retro_load_game_eff]

/-- Witness for C5: a counting oracle whose result ignores the state. -/
theorem retro_load_game_idempotent_result_witness :
    (∀ p : String, ∀ s₁ s₂ : Nat,
        ((fun (_ : String) (s : Nat) => (true, s + 1)) p s₁).1 =
          ((fun (_ : String) (s : Nat) => (true, s + 1)) p s₂).1) ∧
      (retro_load_game_eff (fun _ s => (true, s + 1)) (some sampleGame)
          (retro_load_game_eff (fun _ s => (true, s + 1)) (some sampleGame) 0).2).1 =
        (retro_load_game_eff (fun _ s => (true, s + 1)) (some sampleGame) 0).1 :=
  ⟨fun _ _ _ => rfl,
    retro_load_game_idempotent_result (fun _ s => (true, s + 1)) (some sampleGame) 0
      (fun _ _ _ => rfl)⟩

/-- C6: `retro_load_game` mutates no state of its own.  In the
state-threading embedding every state change comes from the single `load_rom`
call: whenever `load_rom` leaves the state unchanged, so does
`retro_load_game`.  (The game structure itself is received by `const`
reference and no field of it is ever written, allocated or freed — the
embedding takes it as an immutable value.) -/
theorem retro_load_game_no_own_effect {σ : Type}
    (load_rom : String → σ → Bool × σ) (game : Option retro_game_info) (s : σ)
    (hpure : ∀ p t, (load_rom p t).2 = t) :
    (retro_load_game_eff load_rom game s).2 = s := by
  cases game with
  | none => rfl
  | some g =>
    cases h : (load_rom g.path s).1 <;>
      simp [retro_load_game_eff, h, hpure]

/-- Witness for C6 at a concrete pure oracle. -/
theorem retro_load_game_no_own_effect_witness :
    (∀ p : String, ∀ t : Nat,
        ((fun (q : String) (u : Nat) => (q.length == 14, u)) p t).2 = t) ∧
      (retro_load_game_eff (fun q u => (q.length == 14, u)) (some sampleGame) 7).2 = 7 :=
  ⟨fun _ _ => rfl,
    retro_load_game_no_own_effect (fun q u => (q.length == 14, u)) (some sampleGame) 7
      (fun _ _ => rfl)⟩

/-- C7: on a non-null reference, the argument list passed to `load_rom` is
exactly `[g.path]`: the external collaborator receives precisely the path
field of the game structure. -/
theorem retro_load_game_calls_path (load_rom : String → Bool)
    (g : retro_game_info) :
    (retro_load_game_calls load_rom (some g)).2 = [g.path] := by
  cases h : load_rom g.path <;>
    simp [retro_load_game_calls, h]

/-- C8: the result depends only on nullness and on the boolean `load_rom`
yields for the path: two non-null inputs (even under different oracles) whose
paths make `load_rom` answer the same boolean give the same result,
regardless of the other contents of the game structure. -/
theorem retro_load_game_depends_only_on_load (load_rom₁ load_rom₂ : String → Bool)
    (g₁ g₂ : retro_game_info) (h : load_rom₁ g₁.path = load_rom₂ g₂.path) :
    retro_load_game load_rom₁ (some g₁) = retro_load_game load_rom₂ (some g₂) := by
  cases h₁ : load_rom₁ g₁.path <;>
    simp_all [retro_load_game]

/-- Witness for C8: two games differing in every field, one oracle. -/
theorem retro_load_game_depends_only_on_load_witness :
    (fun p : String => p.length == 14) sampleGame.path =
        (fun p : String => p.length == 14) sampleGame2.path ∧
      retro_load_game (fun p => p.length == 14) (some sampleGame) =
        retro_load_game (fun p => p.length == 14) (some sampleGame2) :=
  ⟨rfl,
    retro_load_game_depends_only_on_load (fun p => p.length == 14)
      (fun p => p.length == 14) sampleGame sampleGame2 rfl⟩

/-- C9: in any single call, `load_rom` is invoked exactly once when the
reference is non-null and zero times when it is null — never more than
once. -/
theorem retro_load_game_call_count (load_rom : String → Bool)
    (game : Option retro_game_info) :
    (retro_load_game_calls load_rom game).2.length =
      (if game.isSome then 1 else 0) := by
  cases game with
  | none => rfl
  | some g =>
    cases h : load_rom g.path <;>
      simp [retro_load_game_calls, h]

/-- C10: given a total `load_rom` oracle, `retro_load_game` is a total
function (straight-line code, no loops or recursion): on every input it
yields one of the two boolean outcomes. -/
theorem retro_load_game_total (load_rom : String → Bool)
    (game : Option retro_game_info) :
    retro_load_game load_rom game = true ∨ retro_load_game load_rom game = false := by
  cases h : retro_load_game load_rom game
  · exact Or.inr rfl
  · exact Or.inl rfl
